import Mathlib

/-!
Verification of the Antigravity-Manager web API layer.

The definitions below are a shallow embedding of `src-tauri/src/web_api.rs`
(HTTP handlers for the proxy-service lifecycle, telemetry, configuration
hot-reload, model fetching and version checking).  Network and filesystem
effects are passed in explicitly through environment records, so every
handler becomes a pure function of its inputs and the shared state.

Components that the handlers call but whose source is outside this file's
repository snapshot (the token manager's account pool and sticky sessions,
the proxy monitor's ring buffer, and the Axum server's live configuration
slices) are modelled from the specification; each such definition carries a
doc comment starting with "Modelled from the spec:".
-/

set_option maxHeartbeats 1000000

/-- Mirror of the `ApiResponse<T>` JSON envelope: `ok` carries `success=true`
with data, `err` carries `success=false` with an error string. -/
inductive ApiResponse (α : Type) where
  | ok (data : α)
  | err (msg : String)
  deriving DecidableEq

/-- `ZaiDispatchMode` from `crate::proxy`; only the `Off` discriminant is
inspected by `web_api.rs` (via `matches!`), the remaining modes are collapsed
into `active`. -/
inductive ZaiDispatchMode where
  | off
  | active
  deriving DecidableEq

/-- The `zai` slice of `ProxyConfig` as used by `web_api.rs`:
`enabled`, `dispatch_mode`, `base_url`, `api_key`. -/
structure ZaiConfig where
  enabled : Bool
  dispatch_mode : ZaiDispatchMode
  base_url : String
  api_key : String
  deriving DecidableEq

/-- The `upstream_proxy` slice of `ProxyConfig`: `enabled` flag and `url`. -/
structure UpstreamProxyConfig where
  enabled : Bool
  url : String
  deriving DecidableEq

/-- The fields of `crate::proxy::ProxyConfig` that `web_api.rs` reads:
port, bind address, model mapping table, request timeout, upstream proxy,
zai settings and the logging flag. -/
structure ProxyConfig where
  port : Nat
  bind_address : String
  custom_mapping : List (String × String)
  request_timeout : Nat
  upstream_proxy : UpstreamProxyConfig
  zai : ZaiConfig
  enable_logging : Bool
  deriving DecidableEq

/-- One recorded proxy transaction.  Modelled from the spec:
"RequestLog: timestamp, account used, status, latency, byte counts". -/
structure ProxyRequestLog where
  timestamp : Int
  account : String
  status : Nat
  latency : Nat
  bytes : Nat
  deriving DecidableEq

/-- Aggregate counters.  Modelled from the spec: "AggregateStats: totals,
per-status counts", kept incrementally as logs are appended or cleared. -/
structure ProxyStats where
  total_requests : Nat
  success_count : Nat
  failure_count : Nat
  deriving DecidableEq

/-- The `ProxyStats::default()` value: all counters zero. -/
def ProxyStats.default : ProxyStats := ⟨0, 0, 0⟩

/-- Modelled from the spec: the Monitor is a fixed-capacity FIFO ring buffer
of request logs plus aggregate counters and an enabled flag (§4.4).  `logs`
is kept most-recent-first. -/
structure ProxyMonitor where
  capacity : Nat
  logs : List ProxyRequestLog
  stats : ProxyStats
  enabled : Bool
  deriving DecidableEq

/-- `ProxyMonitor::new(capacity, ..)`: empty buffer, zeroed counters. -/
def ProxyMonitor.new (cap : Nat) : ProxyMonitor :=
  ⟨cap, [], ProxyStats.default, true⟩

/-- `set_enabled`: toggles whether `record` stores anything. -/
def ProxyMonitor.set_enabled (m : ProxyMonitor) (b : Bool) : ProxyMonitor :=
  { m with enabled := b }

/-- Modelled from the spec: `record(entry)` appends to the fixed-capacity
FIFO, dropping the oldest entry when full, and bumps the counters; when the
monitor is disabled it is a no-op (§4.4). -/
def ProxyMonitor.record (m : ProxyMonitor) (e : ProxyRequestLog) : ProxyMonitor :=
  if m.enabled then
    { m with
      logs := (e :: m.logs).take m.capacity
      stats :=
        { total_requests := m.stats.total_requests + 1
          success_count :=
            m.stats.success_count + (if e.status < 400 then 1 else 0)
          failure_count :=
            m.stats.failure_count + (if e.status < 400 then 0 else 1) } }
  else m

/-- Modelled from the spec: `get_logs(limit)` returns the most recent entries
first, bounded by `limit` (§4.4). -/
def ProxyMonitor.get_logs (m : ProxyMonitor) (limit : Nat) : List ProxyRequestLog :=
  m.logs.take limit

/-- `get_stats`: current snapshot of the aggregate counters. -/
def ProxyMonitor.get_stats (m : ProxyMonitor) : ProxyStats := m.stats

/-- Modelled from the spec: `clear()` empties the buffer and resets the
counters (§4.4). -/
def ProxyMonitor.clear (m : ProxyMonitor) : ProxyMonitor :=
  { m with logs := [], stats := ProxyStats.default }

/-- Replays a sequence of `record` calls against a monitor. -/
def replayMonitor (m : ProxyMonitor) (es : List ProxyRequestLog) : ProxyMonitor :=
  es.foldl ProxyMonitor.record m

/-- The running `ProxyServiceInstance`: the config it was started with and
the token manager's account count (`token_manager.len()`), which is what
`get_proxy_status` reports as `active_accounts`. -/
structure ProxyServiceInstance where
  config : ProxyConfig
  tokenManagerLen : Nat
  deriving DecidableEq

/-- The shared `WebApiState`: the at-most-one running proxy instance and the
optional monitor, each an `Option` behind a reader/writer lock in the source;
handlers are modelled as atomic state transformers, which is what the lock
discipline (exclusive writer for the pointer swap) guarantees. -/
structure WebApiState where
  proxy_instance : Option ProxyServiceInstance
  monitor : Option ProxyMonitor
  deriving DecidableEq

/-- Number of live proxy service instances held by the state. -/
def liveInstanceCount (st : WebApiState) : Nat :=
  st.proxy_instance.toList.length

/-- `ProxyStatus` response payload of the start/status endpoints. -/
structure ProxyStatus where
  running : Bool
  port : Nat
  base_url : String
  active_accounts : Nat
  deriving DecidableEq

/-- External effects performed by `start_proxy_service`, in program order:
the data-directory lookup, `token_manager.load_accounts()` and the
`AxumServer::start` socket bind. -/
structure StartEnv where
  dataDir : Except String String
  loadAccounts : Except String Nat
  bindSocket : Except String Unit

/-- `config.zai.enabled && !matches!(config.zai.dispatch_mode, Off)` from
`start_proxy_service`. -/
def zaiActive (c : ProxyConfig) : Bool :=
  c.zai.enabled && !(c.zai.dispatch_mode == ZaiDispatchMode.off)

/-- Shallow embedding of `start_proxy_service`.  Returns the HTTP response,
the updated shared state, and whether the socket bind (`AxumServer::start`)
was reached.  Faithful to the source order: running-check, monitor
creation (capacity 1000) and `set_enabled`, data-dir lookup,
`load_accounts`, the empty-pool/zai check, then the bind. -/
def start_proxy_service (env : StartEnv) (st : WebApiState) (config : ProxyConfig) :
    ApiResponse ProxyStatus × WebApiState × Bool :=
  if st.proxy_instance.isSome then
    (ApiResponse.err "服务已在运行中", st, false)
  else
    let monitor0 := match st.monitor with
      | some m => m
      | none => ProxyMonitor.new 1000
    let st1 : WebApiState :=
      { st with monitor := some (monitor0.set_enabled config.enable_logging) }
    match env.dataDir with
    | Except.error e => (ApiResponse.err e, st1, false)
    | Except.ok _ =>
      match env.loadAccounts with
      | Except.error e => (ApiResponse.err ("加载账号失败: " ++ e), st1, false)
      | Except.ok active_accounts =>
        if active_accounts == 0 && !zaiActive config then
          (ApiResponse.err "没有可用账号，请先添加账号", st1, false)
        else
          match env.bindSocket with
          | Except.error e => (ApiResponse.err ("启动服务器失败: " ++ e), st1, true)
          | Except.ok _ =>
            (ApiResponse.ok
              { running := true
                port := config.port
                base_url := "http://127.0.0.1:" ++ toString config.port
                active_accounts := active_accounts },
             { st1 with proxy_instance := some ⟨config, active_accounts⟩ },
             true)

/-- Shallow embedding of `stop_proxy_service`: error if no instance is
running, otherwise take the instance out of the state and shut it down. -/
def stop_proxy_service (st : WebApiState) : ApiResponse Unit × WebApiState :=
  if st.proxy_instance.isNone then
    (ApiResponse.err "服务未运行", st)
  else
    (ApiResponse.ok (), { st with proxy_instance := none })

/-- Shallow embedding of `get_proxy_status`: reads the instance under the
read lock and never fails. -/
def get_proxy_status (st : WebApiState) : ApiResponse ProxyStatus :=
  match st.proxy_instance with
  | some i =>
    ApiResponse.ok
      { running := true
        port := i.config.port
        base_url := "http://127.0.0.1:" ++ toString i.config.port
        active_accounts := i.tokenManagerLen }
  | none =>
    ApiResponse.ok
      { running := false, port := 0, base_url := "", active_accounts := 0 }

/-- Shallow embedding of `get_proxy_stats`: the monitor's snapshot, or
`ProxyStats::default()` when no monitor exists. -/
def get_proxy_stats (st : WebApiState) : ApiResponse ProxyStats :=
  match st.monitor with
  | some m => ApiResponse.ok m.get_stats
  | none => ApiResponse.ok ProxyStats.default

/-- Shallow embedding of `get_proxy_logs`: `limit` defaults to 100 when the
query parameter is absent; an empty list when no monitor exists. -/
def get_proxy_logs (st : WebApiState) (limit : Option Nat) :
    ApiResponse (List ProxyRequestLog) :=
  match st.monitor with
  | some m => ApiResponse.ok (m.get_logs (limit.getD 100))
  | none => ApiResponse.ok []

/-- Shallow embedding of `clear_proxy_logs`: clears the monitor when one
exists; succeeds either way. -/
def clear_proxy_logs (st : WebApiState) : ApiResponse Unit × WebApiState :=
  match st.monitor with
  | some m => (ApiResponse.ok (), { st with monitor := some m.clear })
  | none => (ApiResponse.ok (), st)

/-- Shallow embedding of `set_proxy_monitor_enabled`: sets the flag when a
monitor exists; succeeds either way. -/
def set_proxy_monitor_enabled (st : WebApiState) (enabled : Bool) :
    ApiResponse Unit × WebApiState :=
  match st.monitor with
  | some m => (ApiResponse.ok (), { st with monitor := some (m.set_enabled enabled) })
  | none => (ApiResponse.ok (), st)

/-- The account pool's view of one account.  Modelled from the spec:
"Eligible account: enabled and not quota-forbidden; a candidate for
selection" (glossary, §4.1). -/
structure PoolAccount where
  id : String
  enabled : Bool
  quotaForbidden : Bool
  deriving DecidableEq

/-- Modelled from the spec: an account is eligible for selection when it is
enabled and not quota-forbidden. -/
def eligible (a : PoolAccount) : Bool :=
  a.enabled && !a.quotaForbidden

/-- Rotates a list by `n` positions, the rotation-policy cursor of the pool
manager. -/
def rotateList {α : Type} (l : List α) (n : Nat) : List α :=
  l.drop (n % l.length) ++ l.take (n % l.length)

/-- Modelled from the spec: `select_next(exclude)` returns one eligible
account not in `exclude`, using a round-robin rotation over the pool
(§4.1). -/
def select_next (pool : List PoolAccount) (rot : Nat) (exclude : List String) :
    Option PoolAccount :=
  (rotateList pool rot).find? (fun a => eligible a && !(exclude.contains a.id))

/-- Body of the `toggle_proxy_status` request: the target enabled state and
an optional reason. -/
structure ToggleProxyStatusRequest where
  enable : Bool
  reason : Option String
  deriving DecidableEq

/-- The three proxy-status fields of an account file that
`toggle_proxy_status` rewrites. -/
structure AccountFile where
  proxy_disabled : Bool
  proxy_disabled_reason : Option String
  proxy_disabled_at : Option Int
  deriving DecidableEq

/-- Shallow embedding of the file rewrite in `toggle_proxy_status`:
`enable=true` clears the three fields, `enable=false` sets
`proxy_disabled=true` with a timestamp and the given (or default) reason. -/
def toggle_proxy_status (req : ToggleProxyStatusRequest) (now : Int)
    (a : AccountFile) : AccountFile :=
  if req.enable then
    { a with
      proxy_disabled := false
      proxy_disabled_reason := none
      proxy_disabled_at := none }
  else
    { a with
      proxy_disabled := true
      proxy_disabled_at := some now
      proxy_disabled_reason := some (req.reason.getD "用户手动禁用") }

/-- Modelled from the spec: a reloaded pool entry reflects the stored file;
the pool manager discards disabled entries from the selectable set, so the
pool view's enabled flag is the negation of `proxy_disabled` (§4.1). -/
def loadPoolAccount (id : String) (f : AccountFile) (quotaForbidden : Bool) :
    PoolAccount :=
  ⟨id, !f.proxy_disabled, quotaForbidden⟩

/-- A sticky-session binding.  Modelled from the spec: "session key →
account id, created-at, last-used-at" (§3). -/
structure SessionBinding where
  accountId : String
  createdAt : Int
  lastUsedAt : Int
  deriving DecidableEq

/-- Modelled from the spec: the token manager's pool, rotation cursor,
sticky-session switch and binding table (§4.1, §4.2). -/
structure TokenManager where
  pool : List PoolAccount
  rot : Nat
  stickyEnabled : Bool
  sessions : List (String × SessionBinding)
  deriving DecidableEq

/-- `clear_all_sessions`: drops every binding immediately. -/
def clear_all_sessions (tm : TokenManager) : TokenManager :=
  { tm with sessions := [] }

/-- Modelled from the spec: fresh selection — pick via the rotation policy,
advance the cursor and overwrite the binding for the key (§4.2). -/
def freshSelect (tm : TokenManager) (key : String) (now : Int) :
    Option PoolAccount × TokenManager :=
  match select_next tm.pool tm.rot [] with
  | some a =>
    (some a,
     { tm with
       rot := tm.rot + 1
       sessions :=
         (key, ⟨a.id, now, now⟩) :: tm.sessions.filter (fun p => !(p.1 == key)) })
  | none => (none, tm)

/-- Modelled from the spec: `resolve(session_key)` — if stickiness is on and
a binding exists whose account is still eligible, return it and refresh its
last-used timestamp; otherwise select a new account and bind it (§4.2). -/
def resolve (tm : TokenManager) (key : String) (now : Int) :
    Option PoolAccount × TokenManager :=
  if tm.stickyEnabled then
    match (tm.sessions.find? (fun p => p.1 == key)).map (fun p => p.2) with
    | some b =>
      match tm.pool.find? (fun a => a.id == b.accountId && eligible a) with
      | some a =>
        (some a,
         { tm with
           sessions := tm.sessions.map (fun p =>
             if p.1 == key then (p.1, { p.2 with lastUsedAt := now }) else p) })
      | none => freshSelect tm key now
    | none => freshSelect tm key now
  else freshSelect tm key now

/-- Modelled from the spec: the Axum server's live configuration, one field
per hot-reloadable slice (mapping, upstream proxy, security, zai); readers
take the slice pointers under a reader/writer lock (§5). -/
structure LiveConfig (M P S Z : Type) where
  mapping : M
  upstreamProxy : P
  security : S
  zai : Z
  deriving DecidableEq

/-- Modelled from the spec: `update_mapping` atomically replaces the mapping
slice of the live config. -/
def update_mapping {M P S Z : Type} (l : LiveConfig M P S Z) (m : M) :
    LiveConfig M P S Z :=
  { l with mapping := m }

/-- Modelled from the spec: `update_proxy` atomically replaces the upstream
proxy slice of the live config. -/
def update_proxy {M P S Z : Type} (l : LiveConfig M P S Z) (p : P) :
    LiveConfig M P S Z :=
  { l with upstreamProxy := p }

/-- Modelled from the spec: `update_security` atomically replaces the
security slice of the live config. -/
def update_security {M P S Z : Type} (l : LiveConfig M P S Z) (s : S) :
    LiveConfig M P S Z :=
  { l with security := s }

/-- Modelled from the spec: `update_zai` atomically replaces the zai slice
of the live config. -/
def update_zai {M P S Z : Type} (l : LiveConfig M P S Z) (z : Z) :
    LiveConfig M P S Z :=
  { l with zai := z }

/-- The hot-reload sequence performed by `save_config` on a running
instance, in source order: `update_mapping`, `update_proxy`,
`update_security`, `update_zai` — four separate atomic slice swaps, each an
awaited call of its own. -/
def save_config_steps {M P S Z : Type} (m : M) (p : P) (s : S) (z : Z) :
    List (LiveConfig M P S Z → LiveConfig M P S Z) :=
  [fun l => update_mapping l m,
   fun l => update_proxy l p,
   fun l => update_security l s,
   fun l => update_zai l z]

/-- What a concurrent reader observes after the first `j` atomic swaps of a
hot-reload sequence have completed: the reader/writer lock admits readers
between any two swaps. -/
def observeAfter {M P S Z : Type} (old : LiveConfig M P S Z)
    (steps : List (LiveConfig M P S Z → LiveConfig M P S Z)) (j : Nat) :
    LiveConfig M P S Z :=
  (steps.take j).foldl (fun l f => f l) old

/-- Rust `str::split(pat)` at character granularity: the separators cut the
character list into (possibly empty) pieces; an empty input yields one empty
piece. -/
def splitChars (p : Char → Bool) : List Char → List Char → List (List Char)
  | [], acc => [acc.reverse]
  | c :: rest, acc =>
    if p c then acc.reverse :: splitChars p rest []
    else splitChars p rest (c :: acc)

/-- Rust `str::trim`: drop leading and trailing whitespace characters. -/
def trimChars (cs : List Char) : List Char :=
  ((cs.dropWhile Char.isWhitespace).reverse.dropWhile Char.isWhitespace).reverse

/-- Rust `u32::from_str`: an optional leading plus sign, then one or more
ASCII digits, rejecting anything else and values that overflow `u32`. -/
def parseU32 (cs : List Char) : Option Nat :=
  let ds := match cs with
    | '+' :: rest => rest
    | _ => cs
  if ds.isEmpty then none
  else if ds.all (fun c => c.isDigit) then
    let v := ds.foldl (fun acc c => acc * 10 + (c.toNat - 48)) 0
    if v < 4294967296 then some v else none
  else none

/-- The `parse_version` closure of `compare_versions`: split on dots and
keep the components that parse as `u32`, dropping the rest. -/
def parse_version (v : String) : List Nat :=
  (splitChars (fun c => c == '.') v.data []).filterMap parseU32

/-- The `for i in 0..3` loop body of `compare_versions`: compare position by
position, missing components read as 0, with early return. -/
def versionCmpGo (lp cp : List Nat) : List Nat → Bool
  | [] => false
  | i :: rest =>
    let l := lp.getD i 0
    let c := cp.getD i 0
    if c < l then true
    else if l < c then false
    else versionCmpGo lp cp rest

/-- Shallow embedding of `compare_versions(latest, current)`. -/
def compare_versions (latest current : String) : Bool :=
  versionCmpGo (parse_version latest) (parse_version current) [0, 1, 2]

/-- Rust `str::trim_start_matches('v')`: drop every leading `v`.  Used by
`check_for_updates` on the GitHub `tag_name`. -/
def trimStartMatchesV (s : String) : String :=
  String.mk (s.data.dropWhile (fun c => c == 'v'))

/-- The update decision of `check_for_updates`, as a function of the fetched
tag name and the compiled-in current version:
`has_update = compare_versions(tag.trim_start_matches('v'), CURRENT)`. -/
def check_for_updates_has_update (tagName currentVersion : String) : Bool :=
  compare_versions (trimStartMatchesV tagName) currentVersion

/-- Specification-side ordering for C9: a version list is lexicographically
greater than another, position by position with early decision. -/
def lexGtSpec : List Nat → List Nat → Bool
  | [], [] => false
  | [], _ :: _ => false
  | _ :: _, [] => true
  | a :: as, b :: bs =>
    if b < a then true
    else if a < b then false
    else lexGtSpec as bs

/-- Specification-side padding for C9: the first three parsed components,
missing ones treated as 0. -/
def pad3 (xs : List Nat) : List Nat :=
  [xs.getD 0 0, xs.getD 1 0, xs.getD 2 0]

/-- Serde-style JSON values, the input shape of `extract_model_ids`. -/
inductive Json where
  | null
  | bool (b : Bool)
  | num (n : Int)
  | str (s : String)
  | arr (items : List Json)
  | obj (fields : List (String × Json))

/-- `Value::as_str`. -/
def Json.asStr : Json → Option String
  | Json.str s => some s
  | _ => none

/-- `Map::get` on a JSON object (keys are unique in a JSON map, so the first
match is the match). -/
def jsonGet (fields : List (String × Json)) (key : String) : Option Json :=
  (fields.find? (fun p => p.1 == key)).map (fun p => p.2)

/-- The inner `push_from_item` helper of `extract_model_ids`: strings are
pushed as-is; objects contribute their string-valued `id`, else `name`. -/
def push_from_item (out : List String) (item : Json) : List String :=
  match item with
  | Json.str s => out ++ [s]
  | Json.obj map =>
    match (jsonGet map "id").bind Json.asStr with
    | some id => out ++ [id]
    | none =>
      match (jsonGet map "name").bind Json.asStr with
      | some name => out ++ [name]
      | none => out
  | _ => out

/-- Shallow embedding of `extract_model_ids`: arrays are scanned directly;
objects contribute their `data` array and then their `models` array (or a
single `models` item). -/
def extract_model_ids (value : Json) : List String :=
  match value with
  | Json.arr items => items.foldl push_from_item []
  | Json.obj map =>
    let out1 := match jsonGet map "data" with
      | some (Json.arr items) => items.foldl push_from_item []
      | _ => []
    match jsonGet map "models" with
    | some (Json.arr items) => items.foldl push_from_item out1
    | some other => push_from_item out1 other
    | none => out1
  | _ => []

/-- `join_base_url`: trim trailing slashes from the base, ensure the path
has a leading slash, concatenate. -/
def join_base_url (base path : String) : String :=
  let base := String.mk (base.data.reverse.dropWhile (fun c => c = '/')).reverse
  let path := if path.startsWith "/" then path else "/" ++ path
  base ++ path

/-- Tail of Rust `Vec::dedup`: drop elements equal to the previously kept
one, keep the others. -/
def dedupAfter {α : Type} [DecidableEq α] (prev : α) : List α → List α
  | [] => []
  | x :: rest => if x = prev then dedupAfter prev rest else x :: dedupAfter x rest

/-- Rust `Vec::dedup`: remove consecutive repeated elements, keeping the
first of each run. -/
def dedupConsec {α : Type} [DecidableEq α] : List α → List α
  | [] => []
  | x :: rest => x :: dedupAfter x rest

/-- Lexicographic strict order on character lists by code point; on UTF-8
encoded text this coincides with Rust's byte-lexicographic `Ord` for
`String`. -/
def charListLt : List Char → List Char → Bool
  | [], [] => false
  | [], _ :: _ => true
  | _ :: _, [] => false
  | a :: as, b :: bs =>
    if a.toNat < b.toNat then true
    else if b.toNat < a.toNat then false
    else charListLt as bs

/-- Rust's `String` strict order. -/
def strLtRust (a b : String) : Bool := charListLt a.data b.data

/-- Rust's `String` total order `a <= b`, the comparator under
`Vec::sort`. -/
def strLeRust (a b : String) : Bool := !(strLtRust b a)

/-- `strLeRust` as a relation, for use with the sorting library.  Rust's
`Vec::sort` is a stable sort under a total antisymmetric order, so its
output equals that of any correct sort under the same order. -/
def strLeR (a b : String) : Prop := strLeRust a b = true

instance : DecidableRel strLeR := fun a b => instDecidableEqBool (strLeRust a b) true

/-- Rust `str::trim().is_empty()`: the string is blank, i.e. all
whitespace. -/
def isBlank (s : String) : Bool := (trimChars s.data).isEmpty

/-- The post-processing pipeline of `fetch_zai_models` on the parsed JSON:
extract ids, drop blank entries, sort, dedup. -/
def zaiModelsPipeline (json : Json) : List String :=
  let models := extract_model_ids json
  let models := models.filter (fun s => !(isBlank s))
  let models := models.insertionSort strLeR
  dedupConsec models

/-- Body of the `fetch_zai_models` request. -/
structure FetchZaiModelsRequest where
  zai : ZaiConfig
  upstream_proxy : UpstreamProxyConfig
  request_timeout : Nat
  deriving DecidableEq

/-- The upstream interaction of `fetch_zai_models`: the send can fail,
reading the body can fail, or a response arrives with a success flag, a
status display string, the body text and its JSON parse result. -/
inductive ZaiUpstream where
  | sendErr (e : String)
  | readErr (e : String)
  | httpResp (statusSuccess : Bool) (statusDisplay : String) (text : String)
      (parsed : Except String Json)

/-- External effects of `fetch_zai_models` in program order: parsing the
upstream proxy URL, building the HTTP client, and the upstream exchange. -/
structure ZaiEnv where
  proxyParse : Except String Unit
  clientBuild : Except String Unit
  upstream : ZaiUpstream

/-- The error-body preview of `fetch_zai_models` (`&text[..4000]` when the
body exceeds 4000 bytes; byte-level truncation approximated at character
granularity here, it only feeds an error message). -/
def previewText (text : String) : String :=
  if text.data.length > 4000 then String.mk (text.data.take 4000) else text

/-- Shallow embedding of `fetch_zai_models`.  Returns the response and
whether the upstream request was issued.  Faithful to the source order:
blank-`base_url` check, blank-`api_key` check, proxy URL parse, client
build, send, read, status check, JSON parse, then the id pipeline. -/
def fetch_zai_models (env : ZaiEnv) (req : FetchZaiModelsRequest) :
    ApiResponse (List String) × Bool :=
  if isBlank req.zai.base_url then
    (ApiResponse.err "z.ai base_url is empty", false)
  else if isBlank req.zai.api_key then
    (ApiResponse.err "z.ai api_key is not set", false)
  else
    let proxyStep : Except String Unit :=
      if req.upstream_proxy.enabled && !req.upstream_proxy.url.data.isEmpty then
        env.proxyParse.mapError (fun e => "Invalid upstream proxy url: " ++ e)
      else Except.ok ()
    match proxyStep with
    | Except.error e => (ApiResponse.err e, false)
    | Except.ok _ =>
      match env.clientBuild with
      | Except.error e => (ApiResponse.err ("Failed to build HTTP client: " ++ e), false)
      | Except.ok _ =>
        match env.upstream with
        | ZaiUpstream.sendErr e =>
          (ApiResponse.err ("Upstream request failed: " ++ e), true)
        | ZaiUpstream.readErr e =>
          (ApiResponse.err ("Failed to read response: " ++ e), true)
        | ZaiUpstream.httpResp statusSuccess statusDisplay text parsed =>
          if !statusSuccess then
            (ApiResponse.err
              ("Upstream returned " ++ statusDisplay ++ ": " ++ previewText text),
             true)
          else
            match parsed with
            | Except.error e =>
              (ApiResponse.err ("Invalid JSON response: " ++ e), true)
            | Except.ok json => (ApiResponse.ok (zaiModelsPipeline json), true)

/-! ### Helper lemmas -/

theorem start_err_state_of_isSome (env : StartEnv) (st : WebApiState)
    (c : ProxyConfig) (i : ProxyServiceInstance) (h : st.proxy_instance = some i) :
    start_proxy_service env st c = (ApiResponse.err "服务已在运行中", st, false) := by
  unfold start_proxy_service
  rw [h]
  rfl

theorem start_ok_post (env : StartEnv) (st : WebApiState) (c : ProxyConfig)
    (r : ProxyStatus) (h : (start_proxy_service env st c).1 = ApiResponse.ok r) :
    st.proxy_instance = none ∧
    ∃ n, (start_proxy_service env st c).2.1.proxy_instance = some ⟨c, n⟩ := by
  unfold start_proxy_service at h ⊢
  rcases hpi : st.proxy_instance with _ | i
  · simp only [hpi, Option.isSome_none, Bool.false_eq_true, if_false] at h ⊢
    rcases hd : env.dataDir with e | d
    · simp [hd] at h
    · simp only [hd] at h ⊢
      rcases hl : env.loadAccounts with e | n
      · simp [hl] at h
      · simp only [hl] at h ⊢
        by_cases hz : (n == 0 && !zaiActive c) = true
        · simp [hz] at h
        · simp only [hz, Bool.false_eq_true, if_false] at h ⊢
          rcases hb : env.bindSocket with e | u
          · simp [hb] at h
          · simp only [hb] at h ⊢
            exact ⟨by trivial, n, rfl⟩
  · rw [hpi] at h
    simp at h

theorem start_err_state (env : StartEnv) (st : WebApiState) (c : ProxyConfig)
    (e : String) (h : (start_proxy_service env st c).1 = ApiResponse.err e) :
    (start_proxy_service env st c).2.1.proxy_instance = st.proxy_instance := by
  unfold start_proxy_service at h ⊢
  rcases hpi : st.proxy_instance with _ | i
  · simp only [hpi, Option.isSome_none, Bool.false_eq_true, if_false] at h ⊢
    rcases hd : env.dataDir with e2 | d
    · rfl
    · simp only [hd] at h ⊢
      rcases hl : env.loadAccounts with e2 | n
      · rfl
      · simp only [hl] at h ⊢
        by_cases hz : (n == 0 && !zaiActive c) = true
        · simp [hz]
        · simp only [hz, Bool.false_eq_true, if_false] at h ⊢
          rcases hb : env.bindSocket with e2 | u
          · rfl
          · simp [hb] at h
  · simp only [Option.isSome_some, if_true]
    exact hpi

theorem stop_cases (st : WebApiState) :
    (st.proxy_instance = none ∧
      stop_proxy_service st = (ApiResponse.err "服务未运行", st)) ∨
    ((∃ i, st.proxy_instance = some i) ∧
      stop_proxy_service st =
        (ApiResponse.ok (), { st with proxy_instance := none })) := by
  unfold stop_proxy_service
  rcases hpi : st.proxy_instance with _ | i
  · exact Or.inl ⟨rfl, rfl⟩
  · exact Or.inr ⟨⟨i, rfl⟩, rfl⟩

/-! ### Claims -/

/-- C1: calling start while an instance is running fails with the
already-running error and leaves the state unchanged; calling stop with no
running instance fails with the not-running error and leaves the state
unchanged; hence a second start without an intervening stop fails, and a
second stop without an intervening start fails. -/
theorem c1_start_stop_error_handling :
    (∀ (env : StartEnv) (st : WebApiState) (c : ProxyConfig) (i : ProxyServiceInstance),
      st.proxy_instance = some i →
        (start_proxy_service env st c).1 = ApiResponse.err "服务已在运行中" ∧
        (start_proxy_service env st c).2.1 = st) ∧
    (∀ st : WebApiState, st.proxy_instance = none →
        (stop_proxy_service st).1 = ApiResponse.err "服务未运行" ∧
        (stop_proxy_service st).2 = st) ∧
    (∀ (env env2 : StartEnv) (st : WebApiState) (c c2 : ProxyConfig) (r : ProxyStatus),
      (start_proxy_service env st c).1 = ApiResponse.ok r →
        (start_proxy_service env2 (start_proxy_service env st c).2.1 c2).1 =
          ApiResponse.err "服务已在运行中") ∧
    (∀ st : WebApiState, (stop_proxy_service st).1 = ApiResponse.ok () →
        (stop_proxy_service (stop_proxy_service st).2).1 = ApiResponse.err "服务未运行") := by
  refine ⟨?_, ?_, ?_, ?_⟩
  · intro env st c i h
    refine ⟨?_, ?_⟩ <;> rw [start_err_state_of_isSome env st c i h]
  · intro st h
    rcases stop_cases st with ⟨_, heq⟩ | ⟨⟨i, hi⟩, _⟩
    · rw [heq]; exact ⟨rfl, rfl⟩
    · rw [h] at hi; cases hi
  · intro env env2 st c c2 r h
    obtain ⟨-, n, hpost⟩ := start_ok_post env st c r h
    exact (start_err_state_of_isSome env2 _ c2 ⟨c, n⟩ hpost ▸ rfl)
  · intro st h
    rcases stop_cases st with ⟨_, heq⟩ | ⟨⟨i, hi⟩, heq⟩
    · rw [heq] at h; cases h
    · rw [heq]
      rcases stop_cases { st with proxy_instance := none } with ⟨_, heq2⟩ | ⟨⟨j, hj⟩, _⟩
      · rw [heq2]
      · cases hj

/-- C1 witness: concrete runs exercising every hypothesis of
`c1_start_stop_error_handling`. -/
theorem c1_witness :
    (start_proxy_service ⟨Except.ok "d", Except.ok 1, Except.ok ()⟩
        ⟨some ⟨⟨1, "a", [], 1, ⟨false, ""⟩, ⟨false, ZaiDispatchMode.off, "", ""⟩, false⟩, 2⟩, none⟩
        ⟨1, "a", [], 1, ⟨false, ""⟩, ⟨false, ZaiDispatchMode.off, "", ""⟩, false⟩).1 =
      ApiResponse.err "服务已在运行中" ∧
    (stop_proxy_service ⟨none, none⟩).1 = ApiResponse.err "服务未运行" := by
  constructor
  · exact (c1_start_stop_error_handling.1 _ _ _ _ rfl).1
  · exact (c1_start_stop_error_handling.2.1 _ rfl).1

/-- C2: the shared state holds the running service as an `Option`, so at
most one instance is live; a successful start transitions `None` to `Some`
and is only possible from `None`; a failed start leaves the instance
unchanged; a successful stop transitions `Some` to `None` and is only
possible from `Some`; a failed stop leaves the instance unchanged (and
`get_proxy_status` takes only a read lock and returns without mutating the
state by construction). -/
theorem c2_at_most_one_instance :
    (∀ st : WebApiState, liveInstanceCount st ≤ 1) ∧
    (∀ (env : StartEnv) (st : WebApiState) (c : ProxyConfig) (r : ProxyStatus),
      (start_proxy_service env st c).1 = ApiResponse.ok r →
        st.proxy_instance = none ∧
        ∃ i, (start_proxy_service env st c).2.1.proxy_instance = some i) ∧
    (∀ (env : StartEnv) (st : WebApiState) (c : ProxyConfig) (e : String),
      (start_proxy_service env st c).1 = ApiResponse.err e →
        (start_proxy_service env st c).2.1.proxy_instance = st.proxy_instance) ∧
    (∀ st : WebApiState, (stop_proxy_service st).1 = ApiResponse.ok () →
        (∃ i, st.proxy_instance = some i) ∧
        (stop_proxy_service st).2.proxy_instance = none) ∧
    (∀ (st : WebApiState) (e : String),
      (stop_proxy_service st).1 = ApiResponse.err e →
        (stop_proxy_service st).2.proxy_instance = st.proxy_instance) := by
  refine ⟨?_, ?_, ?_, ?_, ?_⟩
  · intro st
    rcases h : st.proxy_instance with _ | i <;> simp [liveInstanceCount, h]
  · intro env st c r h
    obtain ⟨h1, n, h2⟩ := start_ok_post env st c r h
    exact ⟨h1, ⟨c, n⟩, h2⟩
  · intro env st c e h
    exact start_err_state env st c e h
  · intro st h
    rcases stop_cases st with ⟨_, heq⟩ | ⟨⟨i, hi⟩, heq⟩
    · rw [heq] at h; cases h
    · exact ⟨⟨i, hi⟩, by rw [heq]⟩
  · intro st e h
    rcases stop_cases st with ⟨hn, heq⟩ | ⟨⟨i, hi⟩, heq⟩
    · rw [heq]
    · rw [heq] at h; cases h

/-- C2 witness: a concrete successful start from the empty state and a
concrete successful stop. -/
theorem c2_witness :
    ((⟨none, none⟩ : WebApiState).proxy_instance = none ∧
      ∃ i, (start_proxy_service ⟨Except.ok "d", Except.ok 1, Except.ok ()⟩
        ⟨none, none⟩
        ⟨1, "a", [], 1, ⟨false, ""⟩, ⟨false, ZaiDispatchMode.off, "", ""⟩, false⟩).2.1.proxy_instance =
          some i) ∧
    ((∃ i, (⟨some ⟨⟨1, "a", [], 1, ⟨false, ""⟩, ⟨false, ZaiDispatchMode.off, "", ""⟩, false⟩, 2⟩, none⟩ : WebApiState).proxy_instance = some i) ∧
      (stop_proxy_service
        ⟨some ⟨⟨1, "a", [], 1, ⟨false, ""⟩, ⟨false, ZaiDispatchMode.off, "", ""⟩, false⟩, 2⟩, none⟩).2.proxy_instance = none) := by
  constructor
  · exact c2_at_most_one_instance.2.1 ⟨Except.ok "d", Except.ok 1, Except.ok ()⟩
      ⟨none, none⟩ ⟨1, "a", [], 1, ⟨false, ""⟩, ⟨false, ZaiDispatchMode.off, "", ""⟩, false⟩
      ⟨true, 1, "http://127.0.0.1:1", 1⟩ (by decide)
  · exact c2_at_most_one_instance.2.2.2.1
      ⟨some ⟨⟨1, "a", [], 1, ⟨false, ""⟩, ⟨false, ZaiDispatchMode.off, "", ""⟩, false⟩, 2⟩, none⟩
      (by decide)

/-- C4: starting from the stopped state, when the account pool loads with
zero selectable accounts and the zai backend is not active, start fails with
the no-accounts error without reaching the socket bind and leaves no
instance; when the zai backend is active, start proceeds to the bind despite
the empty pool, and succeeds if the bind does. -/
theorem c4_empty_pool_requires_zai (env : StartEnv) (st : WebApiState)
    (c : ProxyConfig) (d : String) (hinst : st.proxy_instance = none)
    (hdir : env.dataDir = Except.ok d) (hload : env.loadAccounts = Except.ok 0) :
    (zaiActive c = false →
      (start_proxy_service env st c).1 = ApiResponse.err "没有可用账号，请先添加账号" ∧
      (start_proxy_service env st c).2.2 = false ∧
      (start_proxy_service env st c).2.1.proxy_instance = none) ∧
    (zaiActive c = true →
      (start_proxy_service env st c).2.2 = true ∧
      (env.bindSocket = Except.ok () →
        ∃ r, (start_proxy_service env st c).1 = ApiResponse.ok r)) := by
  unfold start_proxy_service
  simp only [hinst, hdir, hload, Option.isSome_none, Bool.false_eq_true, if_false]
  constructor
  · intro hz
    simp [hz]
  · intro hz
    simp only [hz, beq_self_eq_true, Bool.not_true, Bool.and_false, Bool.false_eq_true,
      if_false]
    rcases hb : env.bindSocket with e | u
    · exact ⟨rfl, fun hok => by cases hok⟩
    · exact ⟨rfl, fun _ => ⟨_, rfl⟩⟩

/-- C4 witness: the two branches at concrete inputs — zai inactive fails
without binding, zai active proceeds to a successful bind. -/
theorem c4_witness :
    ((start_proxy_service ⟨Except.ok "d", Except.ok 0, Except.ok ()⟩ ⟨none, none⟩
        ⟨1, "a", [], 1, ⟨false, ""⟩, ⟨false, ZaiDispatchMode.off, "", ""⟩, false⟩).1 =
      ApiResponse.err "没有可用账号，请先添加账号" ∧
     (start_proxy_service ⟨Except.ok "d", Except.ok 0, Except.ok ()⟩ ⟨none, none⟩
        ⟨1, "a", [], 1, ⟨false, ""⟩, ⟨false, ZaiDispatchMode.off, "", ""⟩, false⟩).2.2 = false) ∧
    ((start_proxy_service ⟨Except.ok "d", Except.ok 0, Except.ok ()⟩ ⟨none, none⟩
        ⟨1, "a", [], 1, ⟨false, ""⟩, ⟨true, ZaiDispatchMode.active, "https://z", "k"⟩, false⟩).2.2 = true) := by
  refine ⟨⟨?_, ?_⟩, ?_⟩
  · exact ((c4_empty_pool_requires_zai ⟨Except.ok "d", Except.ok 0, Except.ok ()⟩
      ⟨none, none⟩ ⟨1, "a", [], 1, ⟨false, ""⟩, ⟨false, ZaiDispatchMode.off, "", ""⟩, false⟩
      "d" rfl rfl rfl).1 (by decide)).1
  · exact ((c4_empty_pool_requires_zai ⟨Except.ok "d", Except.ok 0, Except.ok ()⟩
      ⟨none, none⟩ ⟨1, "a", [], 1, ⟨false, ""⟩, ⟨false, ZaiDispatchMode.off, "", ""⟩, false⟩
      "d" rfl rfl rfl).1 (by decide)).2.1
  · exact ((c4_empty_pool_requires_zai ⟨Except.ok "d", Except.ok 0, Except.ok ()⟩
      ⟨none, none⟩ ⟨1, "a", [], 1, ⟨false, ""⟩, ⟨true, ZaiDispatchMode.active, "https://z", "k"⟩, false⟩
      "d" rfl rfl rfl).2 (by decide)).1

/-- C8: with no running instance, `get_proxy_status` reports not-running
with port 0, empty base url and zero accounts; with no monitor,
`get_proxy_stats` returns the default stats, `get_proxy_logs` returns an
empty list for any limit, and `clear_proxy_logs` and
`set_proxy_monitor_enabled` succeed as no-ops; `get_proxy_logs` defaults its
limit to 100 whenever the query parameter is absent.  None of these
endpoints returns an error in that state. -/
theorem c8_telemetry_total (st : WebApiState) (hinst : st.proxy_instance = none)
    (hmon : st.monitor = none) :
    get_proxy_status st = ApiResponse.ok ⟨false, 0, "", 0⟩ ∧
    get_proxy_stats st = ApiResponse.ok ProxyStats.default ∧
    (∀ q : Option Nat, get_proxy_logs st q = ApiResponse.ok []) ∧
    (∀ st2 : WebApiState, get_proxy_logs st2 none = get_proxy_logs st2 (some 100)) ∧
    clear_proxy_logs st = (ApiResponse.ok (), st) ∧
    (∀ b : Bool, set_proxy_monitor_enabled st b = (ApiResponse.ok (), st)) := by
  refine ⟨?_, ?_, ?_, ?_, ?_, ?_⟩
  · unfold get_proxy_status
    rw [hinst]
  · unfold get_proxy_stats
    rw [hmon]
  · intro q
    unfold get_proxy_logs
    rw [hmon]
  · intro st2
    unfold get_proxy_logs
    rcases h : st2.monitor with _ | m <;> rfl
  · unfold clear_proxy_logs
    rw [hmon]
  · intro b
    unfold set_proxy_monitor_enabled
    rw [hmon]

/-- C8 witness: the never-started state evaluated at each endpoint. -/
theorem c8_witness :
    get_proxy_status ⟨none, none⟩ = ApiResponse.ok ⟨false, 0, "", 0⟩ ∧
    get_proxy_stats ⟨none, none⟩ = ApiResponse.ok ProxyStats.default ∧
    get_proxy_logs ⟨none, none⟩ (some 7) = ApiResponse.ok [] ∧
    clear_proxy_logs ⟨none, none⟩ = (ApiResponse.ok (), ⟨none, none⟩) ∧
    set_proxy_monitor_enabled ⟨none, none⟩ true = (ApiResponse.ok (), ⟨none, none⟩) := by
  obtain ⟨h1, h2, h3, _, h5, h6⟩ := c8_telemetry_total ⟨none, none⟩ rfl rfl
  exact ⟨h1, h2, h3 (some 7), h5, h6 true⟩

/-- C5: for every pool, rotation cursor and exclusion set, `select_next`
never returns an account whose enabled flag is false or whose quota is
forbidden; and an account disabled through `toggle_proxy_status` and then
reloaded into the pool is never selectable. -/
theorem c5_ineligible_never_selected :
    (∀ (pool : List PoolAccount) (rot : Nat) (exclude : List String) (a : PoolAccount),
      a.enabled = false ∨ a.quotaForbidden = true →
        select_next pool rot exclude ≠ some a) ∧
    (∀ (pool : List PoolAccount) (rot : Nat) (exclude : List String)
        (id : String) (f : AccountFile) (qf : Bool)
        (req : ToggleProxyStatusRequest) (now : Int), req.enable = false →
        select_next pool rot exclude ≠
          some (loadPoolAccount id (toggle_proxy_status req now f) qf)) := by
  have key : ∀ (pool : List PoolAccount) (rot : Nat) (exclude : List String)
      (a : PoolAccount), select_next pool rot exclude = some a →
      a.enabled = true ∧ a.quotaForbidden = false := by
    intro pool rot exclude a h
    have hp := List.find?_some h
    have he : eligible a = true := by
      cases heq : eligible a
      · rw [heq] at hp; cases hp
      · rfl
    unfold eligible at he
    simp only [Bool.and_eq_true, Bool.not_eq_true'] at he
    exact he
  constructor
  · intro pool rot exclude a ha h
    obtain ⟨h1, h2⟩ := key pool rot exclude a h
    rcases ha with ha | ha
    · rw [ha] at h1; cases h1
    · rw [ha] at h2; cases h2
  · intro pool rot exclude id f qf req now hreq h
    obtain ⟨h1, -⟩ := key pool rot exclude _ h
    have : (loadPoolAccount id (toggle_proxy_status req now f) qf).enabled = false := by
      unfold loadPoolAccount toggle_proxy_status
      rw [hreq]
      simp
    rw [this] at h1
    cases h1

/-- C5 witness: a disabled account and a quota-forbidden account in a
concrete pool are not selected, and neither is a freshly toggled-off
account. -/
theorem c5_witness :
    select_next [⟨"a", false, false⟩, ⟨"b", true, true⟩] 0 [] ≠ some ⟨"a", false, false⟩ ∧
    select_next [⟨"a", false, false⟩, ⟨"b", true, true⟩] 0 [] ≠ some ⟨"b", true, true⟩ ∧
    select_next [⟨"c", false, false⟩] 1 ["x"] ≠
      some (loadPoolAccount "c" (toggle_proxy_status ⟨false, none⟩ 7 ⟨false, none, none⟩) false) := by
  refine ⟨?_, ?_, ?_⟩
  · exact c5_ineligible_never_selected.1 _ 0 [] _ (Or.inl rfl)
  · exact c5_ineligible_never_selected.1 _ 0 [] _ (Or.inr rfl)
  · exact c5_ineligible_never_selected.2 _ 1 ["x"] "c" ⟨false, none, none⟩ false ⟨false, none⟩ 7 rfl

/-- C7: after `clear_all_sessions` every binding is gone, so the next
`resolve` for any session key performs fresh selection via the rotation
policy rather than returning through the old binding; in particular it
returns the previously bound account only when the rotation policy
(`select_next` over the full pool with no exclusions) re-chooses that
account. -/
theorem c7_clear_all_sessions_rebinds :
    (∀ tm : TokenManager, (clear_all_sessions tm).sessions = []) ∧
    (∀ (tm : TokenManager) (key : String) (now : Int),
      (resolve (clear_all_sessions tm) key now).1 = select_next tm.pool tm.rot []) ∧
    (∀ (tm : TokenManager) (key : String) (now : Int) (b : SessionBinding)
        (a : PoolAccount),
      (tm.sessions.find? (fun p => p.1 == key)).map (fun p => p.2) = some b →
      (resolve (clear_all_sessions tm) key now).1 = some a →
        select_next tm.pool tm.rot [] = some a) := by
  have hfresh : ∀ (tm : TokenManager) (key : String) (now : Int),
      (resolve (clear_all_sessions tm) key now).1 = select_next tm.pool tm.rot [] := by
    intro tm key now
    unfold resolve clear_all_sessions freshSelect
    simp only [List.find?_nil, Option.map_none]
    rcases hs : select_next tm.pool tm.rot [] with _ | a
    · by_cases he : tm.stickyEnabled = true <;> simp [he, hs]
    · by_cases he : tm.stickyEnabled = true <;> simp [he, hs]
  refine ⟨fun tm => rfl, hfresh, ?_⟩
  intro tm key now b a hbind hres
  rw [hfresh tm key now] at hres
  exact hres

/-- C7 witness: with a binding for key s1 on account b, clearing and
resolving returns the rotation choice (account a), which is what the
theorem forces. -/
theorem c7_witness :
    (resolve (clear_all_sessions
        ⟨[⟨"a", true, false⟩, ⟨"b", true, false⟩], 0, true, [("s1", ⟨"b", 0, 0⟩)]⟩)
      "s1" 5).1 = select_next [⟨"a", true, false⟩, ⟨"b", true, false⟩] 0 [] ∧
    select_next [⟨"a", true, false⟩, ⟨"b", true, false⟩] 0 [] = some ⟨"a", true, false⟩ := by
  constructor
  · exact c7_clear_all_sessions_rebinds.2.1
      ⟨[⟨"a", true, false⟩, ⟨"b", true, false⟩], 0, true, [("s1", ⟨"b", 0, 0⟩)]⟩ "s1" 5
  · decide

/-- C3 counterexample: `save_config` hot-reloads a running instance through
four separate awaited slice swaps; after the first swap a concurrent reader
observes a live config that is neither the entire old configuration nor the
entire new one, refuting whole-config atomicity when the update touches more
than one slice. -/
theorem c3_counterexample :
    observeAfter (⟨0, 0, 0, 0⟩ : LiveConfig Nat Nat Nat Nat)
        (save_config_steps 1 1 1 1) 1 ≠ ⟨0, 0, 0, 0⟩ ∧
    observeAfter (⟨0, 0, 0, 0⟩ : LiveConfig Nat Nat Nat Nat)
        (save_config_steps 1 1 1 1) 1 ≠
      observeAfter (⟨0, 0, 0, 0⟩ : LiveConfig Nat Nat Nat Nat)
        (save_config_steps 1 1 1 1) 4 := by
  exact ⟨by decide, by decide⟩

/-- C3 amended: each hot-reload entry point atomically replaces exactly its
slice, so a reader during `save_config` observes, after any prefix of the
four swaps, a config in which every slice is wholly old or wholly new (the
first `j` slices new, the rest old) — never a torn slice — and after all
four swaps the entire new configuration. -/
theorem c3_slicewise_atomicity {M P S Z : Type} (old : LiveConfig M P S Z)
    (m : M) (p : P) (s : S) (z : Z) (j : Nat) (hj : j ≤ 4) :
    observeAfter old (save_config_steps m p s z) j =
      ⟨if 1 ≤ j then m else old.mapping,
       if 2 ≤ j then p else old.upstreamProxy,
       if 3 ≤ j then s else old.security,
       if 4 ≤ j then z else old.zai⟩ := by
  interval_cases j <;> rfl

/-- C3 witness: the characterization evaluated after two of the four swaps
on a concrete config. -/
theorem c3_witness :
    observeAfter (⟨0, 0, 0, 0⟩ : LiveConfig Nat Nat Nat Nat)
      (save_config_steps 1 1 1 1) 2 = ⟨1, 1, 0, 0⟩ := by
  exact (c3_slicewise_atomicity ⟨0, 0, 0, 0⟩ 1 1 1 1 2 (by decide)).trans (by decide)

theorem take_append_take {α : Type} (A l : List α) (cap : Nat) :
    (A ++ l.take cap).take cap = (A ++ l).take cap := by
  rw [List.take_append_eq_append_take, List.take_append_eq_append_take, List.take_take]
  have hm : min (cap - A.length) cap = cap - A.length :=
    Nat.min_eq_left (Nat.sub_le _ _)
  rw [hm]

theorem replay_logs (es : List ProxyRequestLog) :
    ∀ m : ProxyMonitor, m.enabled = true → m.logs.length ≤ m.capacity →
      (replayMonitor m es).logs = (es.reverse ++ m.logs).take m.capacity ∧
      (replayMonitor m es).capacity = m.capacity := by
  induction es with
  | nil =>
    intro m he hlen
    exact ⟨(List.take_of_length_le hlen).symm, rfl⟩
  | cons e es ih =>
    intro m he hlen
    have hrec : m.record e =
        { m with
          logs := (e :: m.logs).take m.capacity
          stats :=
            { total_requests := m.stats.total_requests + 1
              success_count :=
                m.stats.success_count + (if e.status < 400 then 1 else 0)
              failure_count :=
                m.stats.failure_count + (if e.status < 400 then 0 else 1) } } := by
      unfold ProxyMonitor.record
      rw [he]
      simp
    have hstep : replayMonitor m (e :: es) = replayMonitor (m.record e) es := rfl
    have hlen2 : (m.record e).logs.length ≤ (m.record e).capacity := by
      rw [hrec]
      simp [List.length_take]
    have hen2 : (m.record e).enabled = true := by rw [hrec]; exact he
    obtain ⟨h1, h2⟩ := ih (m.record e) hen2 hlen2
    rw [hstep, h1, hrec]
    constructor
    · show (es.reverse ++ (e :: m.logs).take m.capacity).take m.capacity =
        ((e :: es).reverse ++ m.logs).take m.capacity
      rw [take_append_take, List.reverse_cons, List.append_assoc]
      rfl
    · rw [hrec] at h2
      exact h2

/-- C6: replaying any sequence of `record` calls longer than the capacity
against a fresh monitor makes `get_logs(capacity)` return exactly the most
recent `capacity` entries, most recent first (the oldest entries evicted
FIFO); the buffer length never exceeds the capacity; and
`start_proxy_service` creates the deployment's monitor with capacity
1000. -/
theorem c6_monitor_ring_buffer :
    (∀ (cap : Nat) (es : List ProxyRequestLog), cap < es.length →
      (replayMonitor (ProxyMonitor.new cap) es).get_logs cap = es.reverse.take cap ∧
      ((replayMonitor (ProxyMonitor.new cap) es).get_logs cap).length = cap) ∧
    (∀ (cap : Nat) (es : List ProxyRequestLog),
      (replayMonitor (ProxyMonitor.new cap) es).logs.length ≤ cap) ∧
    (∀ (env : StartEnv) (c : ProxyConfig), ∃ m : ProxyMonitor,
      (start_proxy_service env ⟨none, none⟩ c).2.1.monitor = some m ∧
      m.capacity = 1000) := by
  have hbase : ∀ (cap : Nat) (es : List ProxyRequestLog),
      (replayMonitor (ProxyMonitor.new cap) es).logs = es.reverse.take cap := by
    intro cap es
    have h := (replay_logs es (ProxyMonitor.new cap) rfl (by simp [ProxyMonitor.new])).1
    simpa [ProxyMonitor.new] using h
  refine ⟨?_, ?_, ?_⟩
  · intro cap es hlen
    have hl := hbase cap es
    constructor
    · show (replayMonitor (ProxyMonitor.new cap) es).logs.take cap = es.reverse.take cap
      rw [hl, List.take_take, Nat.min_self]
    · show ((replayMonitor (ProxyMonitor.new cap) es).logs.take cap).length = cap
      rw [hl, List.take_take, Nat.min_self, List.length_take, List.length_reverse]
      omega
  · intro cap es
    rw [hbase cap es, List.length_take]
    omega
  · intro env c
    refine ⟨(ProxyMonitor.new 1000).set_enabled c.enable_logging, ?_, rfl⟩
    unfold start_proxy_service
    rcases hd : env.dataDir with e | d <;> simp only [hd]
    · rfl
    · rcases hl : env.loadAccounts with e | n <;> simp only [hl]
      · rfl
      · by_cases hz : (n == 0 && !zaiActive c) = true
        · simp [hz]
        · simp only [hz, Bool.false_eq_true, if_false]
          rcases hb : env.bindSocket with e | u <;> simp only [hb]
          · rfl
          · rfl

/-- C6 witness: capacity 2, three records; the two most recent entries come
back most-recent-first. -/
theorem c6_witness :
    (replayMonitor (ProxyMonitor.new 2)
        [⟨0, "a", 200, 1, 1⟩, ⟨1, "b", 500, 1, 1⟩, ⟨2, "c", 200, 1, 1⟩]).get_logs 2 =
      [⟨2, "c", 200, 1, 1⟩, ⟨1, "b", 500, 1, 1⟩] := by
  exact ((c6_monitor_ring_buffer.1 2
    [⟨0, "a", 200, 1, 1⟩, ⟨1, "b", 500, 1, 1⟩, ⟨2, "c", 200, 1, 1⟩]
    (by decide)).1).trans (by decide)

theorem versionCmpGo_eq_lexGtSpec (lp cp : List Nat) :
    versionCmpGo lp cp [0, 1, 2] = lexGtSpec (pad3 lp) (pad3 cp) := by
  simp only [versionCmpGo, lexGtSpec, pad3]

/-- C9: `compare_versions(latest, current)` returns true exactly when the
list of successfully parsed numeric dot-separated components of `latest`
(failed components skipped) is lexicographically greater than that of
`current` over the first three positions, missing components read as 0; and
`check_for_updates` reports `has_update` under precisely this ordering of
the fetched tag (leading `v`s stripped) against the current version. -/
theorem c9_compare_versions_lex :
    (∀ latest current : String,
      compare_versions latest current =
        lexGtSpec (pad3 (parse_version latest)) (pad3 (parse_version current))) ∧
    (∀ tagName currentVersion : String,
      check_for_updates_has_update tagName currentVersion =
        lexGtSpec (pad3 (parse_version (trimStartMatchesV tagName)))
          (pad3 (parse_version currentVersion))) := by
  constructor
  · intro latest current
    exact versionCmpGo_eq_lexGtSpec (parse_version latest) (parse_version current)
  · intro tagName currentVersion
    exact versionCmpGo_eq_lexGtSpec (parse_version (trimStartMatchesV tagName))
      (parse_version currentVersion)

theorem charToNat_inj {a b : Char} (h : a.toNat = b.toNat) : a = b := by
  unfold Char.toNat at h
  exact Char.ext (UInt32.toNat.inj h)

theorem charListLt_irrefl : ∀ cs : List Char, charListLt cs cs = false := by
  intro cs
  induction cs with
  | nil => rfl
  | cons c rest ih => simp [charListLt, ih]

theorem charListLt_trans : ∀ as bs cs : List Char,
    charListLt as bs = true → charListLt bs cs = true → charListLt as cs = true := by
  intro as
  induction as with
  | nil =>
    intro bs cs h1 h2
    cases bs with
    | nil => cases h1
    | cons b bs =>
      cases cs with
      | nil => simp [charListLt] at h2
      | cons c cs => rfl
  | cons a as ih =>
    intro bs cs h1 h2
    cases bs with
    | nil => simp [charListLt] at h1
    | cons b bs =>
      cases cs with
      | nil => simp [charListLt] at h2
      | cons c cs =>
        simp only [charListLt] at h1 h2 ⊢
        have fact1 : a.toNat < b.toNat ∨
            (a.toNat = b.toNat ∧ charListLt as bs = true) := by
          by_cases hab : a.toNat < b.toNat
          · exact Or.inl hab
          · by_cases hba : b.toNat < a.toNat
            · rw [if_neg hab, if_pos hba] at h1; cases h1
            · rw [if_neg hab, if_neg hba] at h1; exact Or.inr ⟨by omega, h1⟩
        have fact2 : b.toNat < c.toNat ∨
            (b.toNat = c.toNat ∧ charListLt bs cs = true) := by
          by_cases hbc : b.toNat < c.toNat
          · exact Or.inl hbc
          · by_cases hcb : c.toNat < b.toNat
            · rw [if_neg hbc, if_pos hcb] at h2; cases h2
            · rw [if_neg hbc, if_neg hcb] at h2; exact Or.inr ⟨by omega, h2⟩
        rcases fact1 with hab | ⟨hab, hrec1⟩ <;> rcases fact2 with hbc | ⟨hbc, hrec2⟩
        · rw [if_pos (by omega)]
        · rw [if_pos (by omega)]
        · rw [if_pos (by omega)]
        · rw [if_neg (by omega), if_neg (by omega)]
          exact ih bs cs hrec1 hrec2

theorem charListLt_conn : ∀ as bs : List Char,
    as = bs ∨ charListLt as bs = true ∨ charListLt bs as = true := by
  intro as
  induction as with
  | nil =>
    intro bs
    cases bs with
    | nil => exact Or.inl rfl
    | cons b bs => exact Or.inr (Or.inl rfl)
  | cons a as ih =>
    intro bs
    cases bs with
    | nil => exact Or.inr (Or.inr rfl)
    | cons b bs =>
      rcases Nat.lt_trichotomy a.toNat b.toNat with h | h | h
      · exact Or.inr (Or.inl (by simp [charListLt, h]))
      · have hab : a = b := charToNat_inj h
        subst hab
        rcases ih bs with h2 | h2 | h2
        · exact Or.inl (by rw [h2])
        · exact Or.inr (Or.inl (by simp [charListLt, h2]))
        · exact Or.inr (Or.inr (by simp [charListLt, h2]))
      · exact Or.inr (Or.inr (by simp [charListLt, h]))

theorem string_data_inj {a b : String} (h : a.data = b.data) : a = b := by
  cases a with
  | mk da =>
    cases b with
    | mk db => exact congrArg String.mk h

theorem strLtRust_conn (a b : String) :
    a = b ∨ strLtRust a b = true ∨ strLtRust b a = true := by
  rcases charListLt_conn a.data b.data with h | h | h
  · exact Or.inl (string_data_inj h)
  · exact Or.inr (Or.inl h)
  · exact Or.inr (Or.inr h)

theorem strLtRust_trans (a b c : String) (h1 : strLtRust a b = true)
    (h2 : strLtRust b c = true) : strLtRust a c = true :=
  charListLt_trans a.data b.data c.data h1 h2

theorem strLtRust_irrefl (a : String) : strLtRust a a = false :=
  charListLt_irrefl a.data

theorem strLeR_of_lt_eq_false {a b : String} (h : strLtRust b a = false) :
    strLeR a b := by
  simp [strLeR, strLeRust, strLtRust] at h ⊢
  exact h

theorem lt_eq_false_of_strLeR {a b : String} (h : strLeR a b) :
    strLtRust b a = false := by
  simp [strLeR, strLeRust, strLtRust] at h ⊢
  exact h

instance : IsTrans String strLeR := by
  constructor
  intro a b c h1 h2
  have h1f := lt_eq_false_of_strLeR h1
  have h2f := lt_eq_false_of_strLeR h2
  apply strLeR_of_lt_eq_false
  cases hca : strLtRust c a with
  | false => rfl
  | true =>
    exfalso
    rcases strLtRust_conn c b with hcb | hcb | hcb
    · subst hcb
      rw [hca] at h1f
      cases h1f
    · rw [hcb] at h2f
      cases h2f
    · have := strLtRust_trans b c a hcb hca
      rw [this] at h1f
      cases h1f

instance : IsTotal String strLeR := by
  constructor
  intro a b
  cases hba : strLtRust b a with
  | false => exact Or.inl (strLeR_of_lt_eq_false hba)
  | true =>
    refine Or.inr (strLeR_of_lt_eq_false ?_)
    cases hab : strLtRust a b with
    | false => rfl
    | true =>
      have := strLtRust_trans a b a hab hba
      rw [strLtRust_irrefl a] at this
      cases this

theorem dedupAfter_subset {α : Type} [DecidableEq α] :
    ∀ (rest : List α) (prev y : α), y ∈ dedupAfter prev rest → y ∈ rest := by
  intro rest
  induction rest with
  | nil => intro prev y hy; simp [dedupAfter] at hy
  | cons x rest ih =>
    intro prev y hy
    unfold dedupAfter at hy
    by_cases hxp : x = prev
    · rw [if_pos hxp] at hy
      exact List.mem_cons_of_mem x (ih prev y hy)
    · rw [if_neg hxp] at hy
      rcases List.mem_cons.mp hy with rfl | hy2
      · exact List.mem_cons_self y rest
      · exact List.mem_cons_of_mem x (ih x y hy2)

theorem dedupConsec_subset {α : Type} [DecidableEq α] (l : List α) (y : α)
    (hy : y ∈ dedupConsec l) : y ∈ l := by
  cases l with
  | nil => simp [dedupConsec] at hy
  | cons x rest =>
    unfold dedupConsec at hy
    rcases List.mem_cons.mp hy with rfl | hy2
    · exact List.mem_cons_self y rest
    · exact List.mem_cons_of_mem x (dedupAfter_subset rest x y hy2)

theorem dedupAfter_props {α : Type} [DecidableEq α] (lt : α → α → Bool)
    (conn : ∀ a b : α, a = b ∨ lt a b = true ∨ lt b a = true)
    (ltrans : ∀ a b c : α, lt a b = true → lt b c = true → lt a c = true) :
    ∀ (rest : List α) (prev : α),
      (prev :: rest).Pairwise (fun a b => lt b a = false) →
      (∀ y ∈ dedupAfter prev rest, lt prev y = true) ∧
      (dedupAfter prev rest).Pairwise (fun a b => lt a b = true) := by
  intro rest
  induction rest with
  | nil =>
    intro prev h
    exact ⟨by simp [dedupAfter], by simp [dedupAfter]⟩
  | cons x rest ih =>
    intro prev h
    have h1 : ∀ y ∈ x :: rest, lt y prev = false :=
      (List.pairwise_cons.mp h).1
    have h2 : (x :: rest).Pairwise (fun a b => lt b a = false) :=
      (List.pairwise_cons.mp h).2
    by_cases hxp : x = prev
    · subst hxp
      have := ih x h2
      simpa [dedupAfter] using this
    · have hpx : lt prev x = true := by
        rcases conn prev x with hc | hc | hc
        · exact absurd hc (fun hh => hxp hh.symm)
        · exact hc
        · have hfx := h1 x (List.mem_cons_self x rest)
          rw [hfx] at hc
          cases hc
      have hih := ih x h2
      constructor
      · intro y hy
        rw [dedupAfter, if_neg hxp] at hy
        rcases List.mem_cons.mp hy with rfl | hy2
        · exact hpx
        · exact ltrans prev x y hpx (hih.1 y hy2)
      · rw [dedupAfter, if_neg hxp]
        exact List.pairwise_cons.mpr ⟨hih.1, hih.2⟩

theorem dedupConsec_pairwise {α : Type} [DecidableEq α] (lt : α → α → Bool)
    (conn : ∀ a b : α, a = b ∨ lt a b = true ∨ lt b a = true)
    (ltrans : ∀ a b c : α, lt a b = true → lt b c = true → lt a c = true)
    (l : List α) (h : l.Pairwise (fun a b => lt b a = false)) :
    (dedupConsec l).Pairwise (fun a b => lt a b = true) := by
  cases l with
  | nil => simp [dedupConsec]
  | cons x rest =>
    have := dedupAfter_props lt conn ltrans rest x h
    rw [dedupConsec]
    exact List.pairwise_cons.mpr ⟨this.1, this.2⟩

theorem zaiModelsPipeline_props (json : Json) :
    (zaiModelsPipeline json).Pairwise (fun a b => strLtRust a b = true) ∧
    ∀ s ∈ zaiModelsPipeline json, isBlank s = false := by
  unfold zaiModelsPipeline
  constructor
  · apply dedupConsec_pairwise strLtRust strLtRust_conn strLtRust_trans
    have hs : ((extract_model_ids json).filter
        (fun s => !(isBlank s))).insertionSort strLeR |>.Pairwise strLeR :=
      List.sorted_insertionSort strLeR _
    exact hs.imp (fun h => lt_eq_false_of_strLeR h)
  · intro s hs
    have h2 := dedupConsec_subset _ s hs
    have h3 := (List.mem_insertionSort strLeR).mp h2
    have h4 := List.mem_filter.mp h3
    have := h4.2
    cases hb : isBlank s
    · rfl
    · rw [hb] at this
      cases this

theorem fetch_ok_is_pipeline (env : ZaiEnv) (req : FetchZaiModelsRequest)
    (ms : List String) (h : (fetch_zai_models env req).1 = ApiResponse.ok ms) :
    ∃ json : Json, ms = zaiModelsPipeline json := by
  unfold fetch_zai_models at h
  cases hb1 : isBlank req.zai.base_url with
  | true => rw [hb1] at h; simp at h
  | false =>
    rw [hb1] at h
    simp only [Bool.false_eq_true, if_false] at h
    cases hb2 : isBlank req.zai.api_key with
    | true => rw [hb2] at h; simp at h
    | false =>
      rw [hb2] at h
      simp only [Bool.false_eq_true, if_false] at h
      rcases hps : (if req.upstream_proxy.enabled && !req.upstream_proxy.url.data.isEmpty
          then env.proxyParse.mapError (fun e => "Invalid upstream proxy url: " ++ e)
          else Except.ok ()) with e | u
      · rw [hps] at h; simp at h
      · rw [hps] at h
        rcases hcb : env.clientBuild with e | u2
        · rw [hcb] at h; simp at h
        · rw [hcb] at h
          rcases hup : env.upstream with e | e | ⟨statusSuccess, statusDisplay, text, parsed⟩
          · rw [hup] at h; simp at h
          · rw [hup] at h; simp at h
          · rw [hup] at h
            cases hss : statusSuccess with
            | false => rw [hss] at h; simp at h
            | true =>
              rw [hss] at h
              simp only [Bool.not_true, Bool.false_eq_true, if_false] at h
              rcases hp : parsed with e | json
              · rw [hp] at h; simp at h
              · rw [hp] at h
                simp only at h
                cases h
                exact ⟨json, rfl⟩

/-- C10: `fetch_zai_models` fails immediately — before the upstream request
is issued — when the configured base url or api key is blank after trimming;
and every successful result is strictly sorted in Rust's string order (hence
duplicate-free) and contains no blank entries, for every shape of the
upstream JSON. -/
theorem c10_fetch_zai_models :
    (∀ (env : ZaiEnv) (req : FetchZaiModelsRequest), isBlank req.zai.base_url = true →
      (fetch_zai_models env req).1 = ApiResponse.err "z.ai base_url is empty" ∧
      (fetch_zai_models env req).2 = false) ∧
    (∀ (env : ZaiEnv) (req : FetchZaiModelsRequest),
      isBlank req.zai.base_url = false → isBlank req.zai.api_key = true →
      (fetch_zai_models env req).1 = ApiResponse.err "z.ai api_key is not set" ∧
      (fetch_zai_models env req).2 = false) ∧
    (∀ (env : ZaiEnv) (req : FetchZaiModelsRequest) (ms : List String),
      (fetch_zai_models env req).1 = ApiResponse.ok ms →
        ms.Pairwise (fun a b => strLtRust a b = true) ∧
        ∀ s ∈ ms, isBlank s = false) := by
  refine ⟨?_, ?_, ?_⟩
  · intro env req h
    unfold fetch_zai_models
    rw [h]
    exact ⟨rfl, rfl⟩
  · intro env req h1 h2
    unfold fetch_zai_models
    rw [h1, h2]
    exact ⟨rfl, rfl⟩
  · intro env req ms h
    obtain ⟨json, rfl⟩ := fetch_ok_is_pipeline env req ms h
    exact zaiModelsPipeline_props json

/-- C10 witness: a blank base url fails without issuing the request, and a
successful fetch over a concrete mixed-shape JSON body returns a sorted,
duplicate-free, blank-free id list. -/
theorem c10_witness :
    ((fetch_zai_models ⟨Except.ok (), Except.ok (), ZaiUpstream.sendErr "e"⟩
        ⟨⟨true, ZaiDispatchMode.active, " ", "k"⟩, ⟨false, ""⟩, 30⟩).1 =
      ApiResponse.err "z.ai base_url is empty" ∧
     (fetch_zai_models ⟨Except.ok (), Except.ok (), ZaiUpstream.sendErr "e"⟩
        ⟨⟨true, ZaiDispatchMode.active, " ", "k"⟩, ⟨false, ""⟩, 30⟩).2 = false) ∧
    ((zaiModelsPipeline (Json.obj
        [("data", Json.arr [Json.str "b", Json.str " ", Json.obj [("id", Json.str "a")]]),
         ("models", Json.arr [Json.str "a", Json.obj [("name", Json.str "c")]])])).Pairwise
      (fun a b => strLtRust a b = true) ∧
     ∀ s ∈ zaiModelsPipeline (Json.obj
        [("data", Json.arr [Json.str "b", Json.str " ", Json.obj [("id", Json.str "a")]]),
         ("models", Json.arr [Json.str "a", Json.obj [("name", Json.str "c")]])]),
       isBlank s = false) := by
  constructor
  · exact c10_fetch_zai_models.1 ⟨Except.ok (), Except.ok (), ZaiUpstream.sendErr "e"⟩
      ⟨⟨true, ZaiDispatchMode.active, " ", "k"⟩, ⟨false, ""⟩, 30⟩ (by decide)
  · exact c10_fetch_zai_models.2.2
      ⟨Except.ok (), Except.ok (), ZaiUpstream.httpResp true "200" "x" (Except.ok (Json.obj
        [("data", Json.arr [Json.str "b", Json.str " ", Json.obj [("id", Json.str "a")]]),
         ("models", Json.arr [Json.str "a", Json.obj [("name", Json.str "c")]])]))⟩
      ⟨⟨true, ZaiDispatchMode.active, "https://x", "k"⟩, ⟨false, ""⟩, 30⟩
      (zaiModelsPipeline (Json.obj
        [("data", Json.arr [Json.str "b", Json.str " ", Json.obj [("id", Json.str "a")]]),
         ("models", Json.arr [Json.str "a", Json.obj [("name", Json.str "c")]])]))
      (by decide)
